import Mathlib

/-!
Verification development for the PyBulkPDF form-filling core.

The definitions below are a shallow embedding of the Python sources:
`pybulkpdf/config.py`, `pybulkpdf/core/form_filler.py`,
`pybulkpdf/core/pdf_analyzer.py` and `pybulkpdf/core/template_generator.py`.
External collaborators (pypdf, openpyxl, the filesystem) are modelled as
explicit oracles and an explicit list of files present in the output
directory.  Python cell values are modelled by an inductive type whose
`none` constructor stands for Python `None` (openpyxl yields `None` for
empty or absent cells).
-/

namespace PyBulkPDF

/-- Constant `config.OUTPUT_FILENAME_COL` (config.py line 9). -/
def OUTPUT_FILENAME_COL : String := "_output_filename"

/-- Constant `config.PDF_VALUE_CHECKBOX_ON` (config.py line 24). -/
def PDF_VALUE_CHECKBOX_ON : String := "/Yes"

/-- Constant `config.PDF_VALUE_CHECKBOX_OFF` (config.py line 25). -/
def PDF_VALUE_CHECKBOX_OFF : String := "/Off"

/-- A Python value as found in a spreadsheet cell.  `none` is Python
`None` (the value openpyxl yields for an empty or absent cell); `str` is a
Python string; `other` is any other Python value, carrying its `str()`
form. -/
inductive CellValue where
  | none
  | bool (b : Bool)
  | str (s : String)
  | other (s : String)
deriving DecidableEq, Repr

/-- Python `str()` applied to a cell value. -/
def pyStr : CellValue → String
  | CellValue.none => "None"
  | CellValue.bool true => "True"
  | CellValue.bool false => "False"
  | CellValue.str s => s
  | CellValue.other s => s

/-- Per-cell coercion of `FormFiller._prepare_fill_data`
(form_filler.py lines 180-185): `isinstance(value, bool)` maps to the
on/off tokens, `None` maps to the empty string, anything else to
`str(value)`. -/
def coerceCellValue : CellValue → String
  | CellValue.bool b => if b then PDF_VALUE_CHECKBOX_ON else PDF_VALUE_CHECKBOX_OFF
  | CellValue.none => ""
  | CellValue.str s => s
  | CellValue.other s => s

/-- Lookup in the Python dict built by `dict(zip(headers, row_values))`
followed by `.get(key)`: later duplicate keys win, a missing key yields
`None` (form_filler.py lines 245-246). -/
def zipDictGet (pairs : List (String × CellValue)) (key : String) : CellValue :=
  match pairs.reverse.find? (fun p => p.1 == key) with
  | some p => p.2
  | Option.none => CellValue.none

/-- Model of `row_dict.get(field)` for the dict built from headers and row values. -/
def rowLookup (headers : List String) (row : List CellValue) (key : String) : CellValue :=
  zipDictGet (headers.zip row) key

/-- Model of `FormFiller._prepare_fill_data` (form_filler.py lines 174-186): one
coerced entry per common field, where `lookup` is `row_dict.get`. -/
def prepareFillData (commonFields : List String) (lookup : String → CellValue) :
    List (String × String) :=
  commonFields.map (fun f => (f, coerceCellValue (lookup f)))

/-- Python `str.strip()`: drop leading and trailing whitespace.
Implemented by structural recursion on the character list so that it
evaluates inside the kernel. -/
def pyStrip (s : String) : String :=
  String.mk (((s.toList.dropWhile Char.isWhitespace).reverse.dropWhile
    Char.isWhitespace).reverse)

/-- Python `str.lower()` (the filenames involved are ASCII, where
`Char.toLower` agrees with Python). -/
def pyLower (s : String) : String :=
  String.mk (s.toList.map Char.toLower)

/-- Python `str.endswith(post)`: the final characters of `s` spell
`post`. -/
def pyEndsWith (s post : String) : Bool :=
  decide (s.toList.reverse.take post.toList.length = post.toList.reverse)

/-- Model of `str(output_filename_raw).strip() if output_filename_raw is not None
else ''` (form_filler.py lines 246-247). -/
def designatorOf (headers : List String) (row : List CellValue) : String :=
  match rowLookup headers row OUTPUT_FILENAME_COL with
  | CellValue.none => ""
  | v => pyStrip (pyStr v)

/-- Extension normalization (form_filler.py lines 252-253): append
`.pdf` unless the name already ends with it case-insensitively. -/
def normalizeFilename (s : String) : String :=
  if pyEndsWith (pyLower s) ".pdf" then s else s ++ ".pdf"

/-- Model of `os.path.join(output_dir, filename)`. -/
def joinPath (dir file : String) : String := dir ++ "/" ++ file

/-- The Python exception classes that can cross the boundaries modelled
here.  `pypdfError` is the external `pypdf.errors.PdfReadError`;
`otherError` is any other `Exception`.  The carried string is the
exception message as produced by `PyBulkPDFError.__str__` (including the
appended original-error text where the code supplies one). -/
inductive PyExc where
  | pdfReadError (msg : String)
  | pdfWriteError (msg : String)
  | configurationError (msg : String)
  | excelReadError (msg : String)
  | pypdfError (msg : String)
  | otherError (msg : String)
deriving DecidableEq, Repr

/-- Model of `str(e)` on a modelled exception. -/
def pyExcMsg : PyExc → String
  | PyExc.pdfReadError m => m
  | PyExc.pdfWriteError m => m
  | PyExc.configurationError m => m
  | PyExc.excelReadError m => m
  | PyExc.pypdfError m => m
  | PyExc.otherError m => m

/-- Behaviour of the external document engine for one output path:
cloning and writing succeed, cloning raises `pypdf` read errors, opening
the output stream fails before the file is created, or writing fails
after `open(output_filepath, "wb")` has already created the file. -/
inductive FillResult where
  | ok
  | cloneErr (msg : String)
  | openErr (msg : String)
  | writeErr (msg : String)
deriving DecidableEq, Repr

/-- The try-block of steps 4-5 of `FormFiller._process_single_row`
(form_filler.py lines 259-264) together with
`FormFiller._fill_single_pdf` (lines 188-229): a raised preparation
exception propagates; the engine result is classified as in the
`except` clauses of `_fill_single_pdf`, a clone failure becoming a
`PDFReadError` and an open/write failure a `PDFWriteError`.  The second
component is the updated set of files in the output directory (a failed
`writer.write` leaves the file created by `open`). -/
def rowFillAttempt (engine : String → FillResult) (prepExc : Option PyExc)
    (path filename : String) (fs : List String) :
    Except PyExc (Bool × String) × List String :=
  match prepExc with
  | some e => (Except.error e, fs)
  | Option.none =>
    match engine path with
    | FillResult.ok =>
        (Except.ok (true, "Successfully generated " ++ filename), path :: fs)
    | FillResult.cloneErr m =>
        (Except.error (PyExc.pdfReadError
          ("Template read error during cloning for " ++ filename ++
            " (Original error: " ++ m ++ ")")), fs)
    | FillResult.openErr m =>
        (Except.error (PyExc.pdfWriteError
          ("PDF write error for " ++ filename ++
            " (Original error: " ++ m ++ ")")), fs)
    | FillResult.writeErr m =>
        (Except.error (PyExc.pdfWriteError
          ("PDF write error for " ++ filename ++
            " (Original error: " ++ m ++ ")")), path :: fs)

/-- The `except` clauses of `FormFiller._process_single_row`
(form_filler.py lines 266-273): `PDFReadError` and `PDFWriteError`
become a failure outcome with a PDF-processing reason, every other
exception a failure outcome with a generic reason. -/
def rowExcHandler : PyExc → Bool × String
  | PyExc.pdfReadError m => (false, "PDF processing error: " ++ m)
  | PyExc.pdfWriteError m => (false, "PDF processing error: " ++ m)
  | e => (false, "Unexpected error: " ++ pyExcMsg e)

/-- Resolution of the try-block result by the `except` clauses of
`_process_single_row`: a normal completion passes through, a raised
exception is turned into the handler outcome. -/
def handleAttempt : Except PyExc (Bool × String) → Bool × String
  | Except.ok r => r
  | Except.error e => rowExcHandler e

/-- The per-run state of a `FormFiller` after successful setup. -/
structure RowConfig where
  headers : List String
  commonFields : List String
  outputDir : String
  overwrite : Bool

/-- Model of `all(v is None for v in row_values)` (form_filler.py line 240). -/
def rowIsBlank (row : List CellValue) : Bool :=
  row.all (fun v => v == CellValue.none)

/-- Model of `FormFiller._process_single_row` (form_filler.py lines 231-273).
Returns the row outcome (`Option.none` for a completely blank row, else
`some (success, reason)`) and the updated file set.  `prepExc` is an
oracle for an exception raised inside `_prepare_fill_data` (the model
of that function itself is total, but the Python code guards against
arbitrary exceptions there). -/
def processSingleRow (cfg : RowConfig) (engine : String → FillResult)
    (prepExc : Option PyExc) (fs : List String) (row : List CellValue) :
    Option (Bool × String) × List String :=
  if rowIsBlank row then (Option.none, fs)
  else
    let d := designatorOf cfg.headers row
    if d = "" then
      (some (false, "\x27" ++ OUTPUT_FILENAME_COL ++ "\x27 is empty"), fs)
    else
      let f := normalizeFilename d
      let p := joinPath cfg.outputDir f
      if cfg.overwrite = false ∧ p ∈ fs then
        (some (false, "Output file exists: " ++ f ++ " (use --overwrite)"), fs)
      else
        let att := rowFillAttempt engine prepExc p f fs
        (some (handleAttempt att.1), att.2)

/-- The row loop of `FormFiller.run` (form_filler.py lines 313-328),
recording each row number together with the outcome
`_process_single_row` returned for it, threading the file set.  Row
numbers start at 2 (`row_num = row_index + 2`). -/
def runRowsTrace (cfg : RowConfig) (engine : String → FillResult)
    (po : Nat → Option PyExc) :
    List String → Nat → List (List CellValue) →
      List (Nat × Option (Bool × String)) × List String
  | fs, _, [] => ([], fs)
  | fs, n, row :: rest =>
    match processSingleRow cfg engine (po n) fs row with
    | (res, fsNext) =>
      match runRowsTrace cfg engine po fsNext (n + 1) rest with
      | (tr, fsEnd) => ((n, res) :: tr, fsEnd)

/-- The run-level counters of `FormFiller` (`row_count`,
`success_count`, `failed_rows`, form_filler.py lines 68-70). -/
structure RunTally where
  rowCount : Nat
  successCount : Nat
  failedRows : List (Nat × String)
deriving DecidableEq, Repr

/-- One iteration of the tally updates in `FormFiller.run`
(form_filler.py lines 317-327): a blank row changes nothing; otherwise
`row_count` is incremented and either `success_count` is incremented or
the row number and reason are appended to `failed_rows`. -/
def tallyStep (t : RunTally) (entry : Nat × Option (Bool × String)) : RunTally :=
  match entry.2 with
  | Option.none => t
  | some (true, _) =>
      { t with rowCount := t.rowCount + 1, successCount := t.successCount + 1 }
  | some (false, msg) =>
      { t with rowCount := t.rowCount + 1,
               failedRows := t.failedRows ++ [(entry.1, msg)] }

/-- The tally accumulated over a trace, starting from the zero-initialised
counters of `FormFiller.__init__`.  Each loop iteration of `run` updates
the counters from that row outcome alone, so folding the recorded
outcomes is observationally the in-loop accumulation. -/
def tallyOf (tr : List (Nat × Option (Bool × String))) : RunTally :=
  tr.foldl tallyStep { rowCount := 0, successCount := 0, failedRows := [] }

/-- The row-processing phase of `FormFiller.run`: final tally and final
file set. -/
def runRows (cfg : RowConfig) (engine : String → FillResult)
    (po : Nat → Option PyExc) (fs : List String)
    (rows : List (List CellValue)) : RunTally × List String :=
  match runRowsTrace cfg engine po fs 2 rows with
  | (tr, fsEnd) => (tallyOf tr, fsEnd)

/-- Model of `FormFiller._validate_headers_and_map_fields` (form_filler.py lines
142-172): membership of the output column is tested against the *set*
of headers; the common fields are the intersection of the PDF field
names with the non-designator headers; an empty intersection is a
`ConfigurationError`. -/
def validateHeadersAndMapFields (pdfFieldNames : List String)
    (headers : List String) : Except PyExc (List String) :=
  if OUTPUT_FILENAME_COL ∈ headers then
    let common := pdfFieldNames.filter
      (fun f => headers.contains f && f != OUTPUT_FILENAME_COL)
    if common.isEmpty then
      Except.error (PyExc.configurationError
        "No common fields found between PDF template and Excel headers. Cannot proceed.")
    else Except.ok common
  else
    Except.error (PyExc.configurationError
      ("Required column \x27" ++ OUTPUT_FILENAME_COL ++
        "\x27 not found in Excel file headers."))

/-- Model of `FormFiller.run` from header validation onward (form_filler.py lines
301-333): a validation error propagates before any row is processed,
otherwise the rows are processed with the validated common fields. -/
def formFillerRun (pdfFieldNames headers : List String)
    (outputDir : String) (overwrite : Bool) (engine : String → FillResult)
    (po : Nat → Option PyExc) (fs : List String)
    (rows : List (List CellValue)) : Except PyExc (RunTally × List String) :=
  match validateHeadersAndMapFields pdfFieldNames headers with
  | Except.error e => Except.error e
  | Except.ok common =>
      Except.ok (runRows
        { headers := headers, commonFields := common,
          outputDir := outputDir, overwrite := overwrite } engine po fs rows)

/-- Outcome of `PdfReader(path).get_fields()` on the template: a
structural parse failure (a `pypdf` read error), or the list of
discovered field names (empty when `get_fields` returns `None` or an
empty dict, both falsy). -/
inductive PdfParseResult where
  | parseError (msg : String)
  | fields (names : List String)
deriving DecidableEq, Repr

/-- Model of `FormFiller._read_pdf_template_fields` (form_filler.py lines
84-108).  The whole body, including the `raise ConfigurationError` for
a field-less template at line 98, sits inside the `try`; the
`except pypdf_errors.PdfReadError` clause wraps parse failures and the
broad `except Exception` clause wraps every other exception raised in
the body as a `PDFReadError`. -/
def readPdfTemplateFields (templatePath : String) (parse : PdfParseResult) :
    Except PyExc (List String) :=
  let body : Except PyExc (List String) :=
    match parse with
    | PdfParseResult.parseError m => Except.error (PyExc.pypdfError m)
    | PdfParseResult.fields names =>
      if names.isEmpty then
        Except.error (PyExc.configurationError
          ("No fillable fields found in template PDF: " ++ templatePath))
      else Except.ok names
  match body with
  | Except.ok names => Except.ok names
  | Except.error (PyExc.pypdfError m) =>
      Except.error (PyExc.pdfReadError
        ("Error reading PDF structure from \x27" ++ templatePath ++
          "\x27 (Original error: " ++ m ++ ")"))
  | Except.error e =>
      Except.error (PyExc.pdfReadError
        ("Unexpected error reading PDF template fields \x27" ++ templatePath ++
          "\x27 (Original error: " ++ pyExcMsg e ++ ")"))

/-- Header row of the generated Excel scaffold
(`TemplateGenerator._generate_excel_template`, template_generator.py
lines 81-84): `sorted(list(field_names_set)) + [OUTPUT_FILENAME_COL]`. -/
def templateXlsxHeaders (fieldNames : List String) : List String :=
  fieldNames.mergeSort ++ [OUTPUT_FILENAME_COL]

/-- One entry of a Choice field options array (`/Opt`).  Per the PDF
specification an entry is either an array (display/export pair) of text
strings or a bare text string, which is what pypdf hands back as
`ArrayObject` or `TextStringObject`. -/
inductive OptEntry where
  | seq (elems : List String)
  | scalar (s : String)
deriving DecidableEq, Repr

/-- Python `str()` of a list of strings, as produced for an
`ArrayObject`. -/
def pyStrList (elems : List String) : String :=
  "[" ++ String.intercalate ", " (elems.map (fun s => "\x27" ++ s ++ "\x27")) ++ "]"

/-- Python `str(opt)` applied to an options entry. -/
def pyStrOpt : OptEntry → String
  | OptEntry.seq es => pyStrList es
  | OptEntry.scalar s => s

/-- Python `len(opt)`: length of the array, or character count of the
string. -/
def optLen : OptEntry → Nat
  | OptEntry.seq es => es.length
  | OptEntry.scalar s => s.length

/-- Python `opt[i]` followed by `str()`: element of the array, or the
one-character string at that index; `Option.none` models the
`IndexError` raised when the index is out of range. -/
def optIndex : OptEntry → Nat → Option String
  | OptEntry.seq es, i => es.get? i
  | OptEntry.scalar s, i => (s.toList.get? i).map (fun c => String.mk [c])

/-- Model of `str(opt[1]) if len(opt) > 1 else str(opt[0])`
(pdf_analyzer.py line 124). -/
def extractPairToken (o : OptEntry) : Option String :=
  if optLen o > 1 then optIndex o 1 else optIndex o 0

/-- The list comprehension over all options entries in the pair branch;
`Option.none` models an entry raising `IndexError`. -/
def extractPairTokens : List OptEntry → Option (List String)
  | [] => some []
  | o :: rest =>
    match extractPairToken o, extractPairTokens rest with
    | some t, some ts => some (t :: ts)
    | _, _ => Option.none

/-- Model of `isinstance(options[0], (list, tuple)) and len(options[0]) >= 1`
(pdf_analyzer.py line 123), applied to a single entry. -/
def isSeqPair : OptEntry → Bool
  | OptEntry.seq es => decide (1 ≤ es.length)
  | OptEntry.scalar _ => false

/-- Export-token extraction for a Choice field
(`PDFAnalyzer.analyze_field_types`, pdf_analyzer.py lines 119-127): the
branch is chosen by the shape of the *first* entry and then applied to
every entry. -/
def choiceExportValues (options : List OptEntry) : Option (List String) :=
  match options with
  | [] => some []
  | first :: _ =>
    if isSeqPair first then extractPairTokens options
    else some (options.map pyStrOpt)

/-- Export-token extraction for a Button field
(`PDFAnalyzer.analyze_field_types`, pdf_analyzer.py lines 107-114): the
appearance-state dictionary keys with the first occurrence of the off
token removed. -/
def buttonExportValues (apStateKeys : List String) : List String :=
  apStateKeys.erase PDF_VALUE_CHECKBOX_OFF

/-- Modelled from the spec: the per-entry token rule of section 4.1
("the export (second) element is preferred when pairs are present,
falling back to the first element for single-element entries, and to
the raw value otherwise"), stated for one options entry. -/
def specChoiceToken : OptEntry → String
  | OptEntry.seq (_ :: b :: _) => b
  | OptEntry.seq [a] => a
  | o => pyStrOpt o

/-- C4: the per-cell coercion is a total function mapping boolean cells
to the fixed on/off tokens, absent cells to the empty string and any
other value to its canonical string form; re-coercing the resulting
string is the identity, and `_prepare_fill_data` applies exactly this
coercion to every common field. -/
theorem coercion_total_idempotent :
    coerceCellValue (CellValue.bool true) = PDF_VALUE_CHECKBOX_ON ∧
    coerceCellValue (CellValue.bool false) = PDF_VALUE_CHECKBOX_OFF ∧
    coerceCellValue CellValue.none = "" ∧
    (∀ s : String, coerceCellValue (CellValue.str s) = s) ∧
    (∀ s : String, coerceCellValue (CellValue.other s) = s) ∧
    (∀ v : CellValue,
      coerceCellValue (CellValue.str (coerceCellValue v)) = coerceCellValue v) ∧
    (∀ (fields : List String) (lookup : String → CellValue) (f : String),
      f ∈ fields → (f, coerceCellValue (lookup f)) ∈ prepareFillData fields lookup) := by
  refine ⟨rfl, rfl, rfl, fun s => rfl, fun s => rfl, fun v => rfl, ?_⟩
  intro fields lookup f hf
  exact List.mem_map.mpr ⟨f, hf, rfl⟩

/-- Witness for `coercion_total_idempotent` at a concrete field list. -/
theorem coercion_total_idempotent_witness :
    ("Name" : String) ∈ ["Name"] ∧
    ("Name", coerceCellValue (CellValue.bool true)) ∈
      prepareFillData ["Name"] (fun _ => CellValue.bool true) :=
  ⟨by decide,
    coercion_total_idempotent.2.2.2.2.2.2 ["Name"]
      (fun _ => CellValue.bool true) "Name" (by decide)⟩

/-- C10: the scaffold header row is the template field identifiers in
ascending order followed by the output-designator column as the final
column; the designator column is always present and always last. -/
theorem scaffold_headers_sorted_designator_last (fieldNames : List String) :
    (templateXlsxHeaders fieldNames).getLast? = some OUTPUT_FILENAME_COL ∧
    (templateXlsxHeaders fieldNames).dropLast.Perm fieldNames ∧
    List.Sorted (fun a b => a ≤ b) (templateXlsxHeaders fieldNames).dropLast ∧
    OUTPUT_FILENAME_COL ∈ templateXlsxHeaders fieldNames := by
  have hdrop : (templateXlsxHeaders fieldNames).dropLast = fieldNames.mergeSort := by
    simp [templateXlsxHeaders]
  refine ⟨List.getLast?_concat _, ?_, ?_, ?_⟩
  · rw [hdrop]; exact List.mergeSort_perm fieldNames _
  · rw [hdrop]; exact List.sorted_mergeSort' fieldNames
  · exact List.mem_append_right _ (List.mem_singleton_self _)

/-- C3: evaluating `_read_pdf_template_fields` on a template that parses
but yields zero fields shows the escaping exception is a `PDFReadError`
wrapping the intended `ConfigurationError` (the `raise` at
form_filler.py line 98 is caught by the broad `except Exception` at
line 105), while the template-scaffold path does proceed and emits a
header row containing only the output-designator column. -/
theorem empty_template_wrapped_as_read_error :
    readPdfTemplateFields "template.pdf" (PdfParseResult.fields []) =
      Except.error (PyExc.pdfReadError
        ("Unexpected error reading PDF template fields \x27template.pdf\x27" ++
          " (Original error: No fillable fields found in template PDF: template.pdf)")) ∧
    templateXlsxHeaders [] = [OUTPUT_FILENAME_COL] := by
  constructor
  · rfl
  · simp [templateXlsxHeaders]

/-- C9 counterexample: in a mixed options list whose first entry is a
bare value, a later display/export pair is stringified wholesale rather
than contributing its export (second) element, refuting the per-entry
reading of the extraction rule. -/
theorem mixed_options_break_per_entry_rule :
    choiceExportValues [OptEntry.scalar "x", OptEntry.seq ["d", "e"]] =
      some ["x", "[\x27d\x27, \x27e\x27]"] ∧
    specChoiceToken (OptEntry.seq ["d", "e"]) = "e" ∧
    ("[\x27d\x27, \x27e\x27]" : String) ≠ "e" := by
  refine ⟨by decide, rfl, by decide⟩

/-- Helper for the amended C9: on a list whose entries are all nonempty
sequences the pair branch extracts, entry by entry, the second element
when present and the first otherwise. -/
theorem extractPairTokens_spec (opts : List OptEntry)
    (h : ∀ o ∈ opts, ∃ es, o = OptEntry.seq es ∧ es ≠ []) :
    extractPairTokens opts = some (opts.map specChoiceToken) := by
  induction opts with
  | nil => rfl
  | cons o rest ih =>
    obtain ⟨es, rfl, hne⟩ := h o (List.mem_cons_self o rest)
    have hrest := ih (fun o ho => h o (List.mem_cons_of_mem _ ho))
    match es, hne with
    | [a], _ =>
      simp [extractPairTokens, extractPairToken, optLen, optIndex, specChoiceToken, hrest]
    | a :: b :: rest2, _ =>
      simp [extractPairTokens, extractPairToken, optLen, optIndex, specChoiceToken, hrest]

/-- C9 amended: the branch is chosen by the first entry and applied to
the whole list, so the per-entry rule holds on encoding-homogeneous
options lists (all entries nonempty display/export sequences, or all
entries bare values); Button tokens are the appearance-state keys with
the canonical off token excluded. -/
theorem homogeneous_options_tokens :
    (∀ opts : List OptEntry, (∀ o ∈ opts, ∃ es, o = OptEntry.seq es ∧ es ≠ []) →
      choiceExportValues opts = some (opts.map specChoiceToken)) ∧
    (∀ opts : List OptEntry, (∀ o ∈ opts, ∃ s, o = OptEntry.scalar s) →
      choiceExportValues opts = some (opts.map specChoiceToken)) ∧
    (∀ keys : List String, keys.Nodup →
      buttonExportValues keys = keys.filter (fun k => k != PDF_VALUE_CHECKBOX_OFF)) := by
  refine ⟨?_, ?_, ?_⟩
  · intro opts h
    match opts with
    | [] => rfl
    | o :: rest =>
      obtain ⟨es, rfl, hne⟩ := h o (List.mem_cons_self o rest)
      have hfirst : isSeqPair (OptEntry.seq es) = true := by
        simp [isSeqPair, Nat.one_le_iff_ne_zero, List.length_eq_zero, hne]
      simpa [choiceExportValues, hfirst] using extractPairTokens_spec _ h
  · intro opts h
    match opts with
    | [] => rfl
    | o :: rest =>
      obtain ⟨s, rfl⟩ := h o (List.mem_cons_self o rest)
      have hmap : ∀ o ∈ OptEntry.scalar s :: rest, pyStrOpt o = specChoiceToken o := by
        intro o ho
        obtain ⟨t, rfl⟩ := h o ho
        rfl
      simp [choiceExportValues, isSeqPair, List.map_congr_left hmap]
  · intro keys hnd
    exact hnd.erase_eq_filter PDF_VALUE_CHECKBOX_OFF

/-- Witness for `homogeneous_options_tokens` at concrete options lists
and appearance-state keys. -/
theorem homogeneous_options_tokens_witness :
    choiceExportValues [OptEntry.seq ["Display A", "ExportA"], OptEntry.seq ["B"]] =
      some ["ExportA", "B"] ∧
    choiceExportValues [OptEntry.scalar "u", OptEntry.scalar "v"] = some ["u", "v"] ∧
    buttonExportValues ["/Yes", "/Off"] = ["/Yes"] := by
  refine ⟨?_, ?_, ?_⟩
  · have h := homogeneous_options_tokens.1
      [OptEntry.seq ["Display A", "ExportA"], OptEntry.seq ["B"]]
      (by
        intro o ho
        rcases List.mem_cons.mp ho with h1 | h2
        · exact ⟨["Display A", "ExportA"], h1, by decide⟩
        · rcases List.mem_cons.mp h2 with h3 | h4
          · exact ⟨["B"], h3, by decide⟩
          · simp at h4)
    simpa [specChoiceToken] using h
  · have h := homogeneous_options_tokens.2.1
      [OptEntry.scalar "u", OptEntry.scalar "v"]
      (by
        intro o ho
        rcases List.mem_cons.mp ho with h1 | h2
        · exact ⟨"u", h1⟩
        · rcases List.mem_cons.mp h2 with h3 | h4
          · exact ⟨"v", h3⟩
          · simp at h4)
    simpa [specChoiceToken, pyStrOpt] using h
  · have h := homogeneous_options_tokens.2.2 ["/Yes", "/Off"] (by decide)
    rw [h]; decide

/-- C7 counterexample: a header row containing the output-designator
column twice is accepted — header validation succeeds and the run goes
on to process rows, contradicting the exactly-once requirement. -/
theorem duplicate_designator_accepted :
    validateHeadersAndMapFields ["Name"]
      [OUTPUT_FILENAME_COL, OUTPUT_FILENAME_COL, "Name"] = Except.ok ["Name"] ∧
    formFillerRun ["Name"] [OUTPUT_FILENAME_COL, OUTPUT_FILENAME_COL, "Name"]
      "out" false (fun _ => FillResult.ok) (fun _ => Option.none) []
      [[CellValue.str "r1", CellValue.str "r1", CellValue.str "Alice"]] =
      Except.ok ({ rowCount := 1, successCount := 1, failedRows := [] },
        ["out/r1.pdf"]) := by
  constructor
  · rfl
  · rfl

/-- C7 amended: the output-designator column name must appear at least
once, case-sensitively, among the tabular headers; if it is absent the
run fails with a `ConfigurationError` before any row is processed
(duplicate occurrences are not rejected). -/
theorem designator_required_at_least_once (pdfFieldNames headers : List String)
    (outputDir : String) (overwrite : Bool) (engine : String → FillResult)
    (po : Nat → Option PyExc) (fs : List String) (rows : List (List CellValue))
    (habs : OUTPUT_FILENAME_COL ∉ headers) :
    formFillerRun pdfFieldNames headers outputDir overwrite engine po fs rows =
      Except.error (PyExc.configurationError
        ("Required column \x27" ++ OUTPUT_FILENAME_COL ++
          "\x27 not found in Excel file headers.")) := by
  simp [formFillerRun, validateHeadersAndMapFields, habs]

/-- Witness for `designator_required_at_least_once` with a concrete
header row lacking the designator column. -/
theorem designator_required_at_least_once_witness :
    formFillerRun ["Name"] ["Name"] "out" false (fun _ => FillResult.ok)
      (fun _ => Option.none) [] [] =
      Except.error (PyExc.configurationError
        ("Required column \x27" ++ OUTPUT_FILENAME_COL ++
          "\x27 not found in Excel file headers.")) :=
  designator_required_at_least_once ["Name"] ["Name"] "out" false
    (fun _ => FillResult.ok) (fun _ => Option.none) [] [] (by decide)

/-- A completely blank row is returned unprocessed with the file set
untouched (form_filler.py line 240). -/
theorem processSingleRow_blank (cfg : RowConfig) (engine : String → FillResult)
    (pe : Option PyExc) (fs : List String) (row : List CellValue)
    (h : rowIsBlank row = true) :
    processSingleRow cfg engine pe fs row = (Option.none, fs) := by
  simp [processSingleRow, h]

/-- A row whose designator strips to the empty string is a skip with the
empty-designator reason. -/
theorem processSingleRow_emptyName (cfg : RowConfig) (engine : String → FillResult)
    (pe : Option PyExc) (fs : List String) (row : List CellValue)
    (hb : rowIsBlank row = false) (hd : designatorOf cfg.headers row = "") :
    processSingleRow cfg engine pe fs row =
      (some (false, "\x27" ++ OUTPUT_FILENAME_COL ++ "\x27 is empty"), fs) := by
  simp [processSingleRow, hb, hd]

/-- Collision without overwrite is a skip with the output-exists reason. -/
theorem processSingleRow_exists (cfg : RowConfig) (engine : String → FillResult)
    (pe : Option PyExc) (fs : List String) (row : List CellValue)
    (hb : rowIsBlank row = false) (hd : designatorOf cfg.headers row ≠ "")
    (hov : cfg.overwrite = false)
    (hmem : joinPath cfg.outputDir (normalizeFilename (designatorOf cfg.headers row)) ∈ fs) :
    processSingleRow cfg engine pe fs row =
      (some (false, "Output file exists: " ++
        normalizeFilename (designatorOf cfg.headers row) ++ " (use --overwrite)"), fs) := by
  simp [processSingleRow, hb, hd, hov, hmem]

/-- When the pre-checks pass, the row outcome is the handled result of
the fill attempt and the file set is whatever the attempt left behind. -/
theorem processSingleRow_fill (cfg : RowConfig) (engine : String → FillResult)
    (pe : Option PyExc) (fs : List String) (row : List CellValue)
    (hb : rowIsBlank row = false) (hd : designatorOf cfg.headers row ≠ "")
    (hnc : ¬ (cfg.overwrite = false ∧
      joinPath cfg.outputDir (normalizeFilename (designatorOf cfg.headers row)) ∈ fs)) :
    processSingleRow cfg engine pe fs row =
      (some (handleAttempt (rowFillAttempt engine pe
          (joinPath cfg.outputDir (normalizeFilename (designatorOf cfg.headers row)))
          (normalizeFilename (designatorOf cfg.headers row)) fs).1),
        (rowFillAttempt engine pe
          (joinPath cfg.outputDir (normalizeFilename (designatorOf cfg.headers row)))
          (normalizeFilename (designatorOf cfg.headers row)) fs).2) := by
  simp [processSingleRow, hb, hd, hnc]

/-- Every non-blank row yields an outcome. -/
theorem processSingleRow_nonblank_some (cfg : RowConfig) (engine : String → FillResult)
    (pe : Option PyExc) (fs : List String) (row : List CellValue)
    (hb : rowIsBlank row = false) :
    ∃ r, (processSingleRow cfg engine pe fs row).1 = some r := by
  unfold processSingleRow
  rw [hb]
  simp only [Bool.false_eq_true, if_false]
  split
  · exact ⟨_, rfl⟩
  · split
    · exact ⟨_, rfl⟩
    · exact ⟨_, rfl⟩

/-- Unfolding equation for the loop on a cons cell. -/
theorem runRowsTrace_cons (cfg : RowConfig) (engine : String → FillResult)
    (po : Nat → Option PyExc) (fs : List String) (n : Nat)
    (row : List CellValue) (rest : List (List CellValue)) :
    runRowsTrace cfg engine po fs n (row :: rest) =
      ((n, (processSingleRow cfg engine (po n) fs row).1) ::
          (runRowsTrace cfg engine po
            (processSingleRow cfg engine (po n) fs row).2 (n + 1) rest).1,
        (runRowsTrace cfg engine po
          (processSingleRow cfg engine (po n) fs row).2 (n + 1) rest).2) := by
  rcases hp : processSingleRow cfg engine (po n) fs row with ⟨res, fsNext⟩
  rcases hr : runRowsTrace cfg engine po fsNext (n + 1) rest with ⟨tr, fsEnd⟩
  simp only [runRowsTrace, hp, hr]

/-- One tally step preserves the balance between successes, failures and
rows seen. -/
theorem tallyStep_invariant (t : RunTally) (e : Nat × Option (Bool × String))
    (h : t.successCount + t.failedRows.length = t.rowCount) :
    (tallyStep t e).successCount + (tallyStep t e).failedRows.length =
      (tallyStep t e).rowCount := by
  rcases e with ⟨n, res⟩
  rcases res with _ | ⟨b, msg⟩
  · simpa [tallyStep] using h
  · cases b <;> simp [tallyStep] <;> omega

/-- Folding the tally over any trace preserves the balance. -/
theorem tally_foldl_invariant (tr : List (Nat × Option (Bool × String))) :
    ∀ t : RunTally, t.successCount + t.failedRows.length = t.rowCount →
      (tr.foldl tallyStep t).successCount + (tr.foldl tallyStep t).failedRows.length =
        (tr.foldl tallyStep t).rowCount := by
  induction tr with
  | nil => intro t h; simpa using h
  | cons e rest ih =>
    intro t h
    simpa using ih (tallyStep t e) (tallyStep_invariant t e h)

/-- The row counter counts exactly the trace entries carrying an
outcome. -/
theorem tally_foldl_rowCount (tr : List (Nat × Option (Bool × String))) :
    ∀ t : RunTally, (tr.foldl tallyStep t).rowCount =
      t.rowCount + (tr.filter (fun e => e.2.isSome)).length := by
  induction tr with
  | nil => intro t; simp
  | cons e rest ih =>
    intro t
    rcases e with ⟨n, res⟩
    rcases res with _ | ⟨b, m⟩
    · simpa [tallyStep] using ih t
    · cases b <;> simp [tallyStep, ih] <;> omega

/-- Trace entries carrying an outcome correspond exactly to the
non-blank rows. -/
theorem runRowsTrace_outcome_count (cfg : RowConfig) (engine : String → FillResult)
    (po : Nat → Option PyExc) :
    ∀ (rows : List (List CellValue)) (fs : List String) (n : Nat),
      ((runRowsTrace cfg engine po fs n rows).1.filter (fun e => e.2.isSome)).length =
        (rows.filter (fun r => !(rowIsBlank r))).length := by
  intro rows
  induction rows with
  | nil => intro fs n; rfl
  | cons row rest ih =>
    intro fs n
    rw [runRowsTrace_cons]
    by_cases hb : rowIsBlank row = true
    · have h1 : (processSingleRow cfg engine (po n) fs row).1 = Option.none := by
        simp [processSingleRow_blank cfg engine (po n) fs row hb]
      simp [h1, hb, ih]
    · obtain ⟨r, hr⟩ := processSingleRow_nonblank_some cfg engine (po n) fs row
        (by simpa using hb)
      simp [hr, hb, ih]

/-- C1: at the end of the row loop the number of succeeded rows plus the
number of recorded failed/skipped rows equals the number of rows seen,
where completely blank rows are never seen. -/
theorem run_tally_counts_balance (cfg : RowConfig) (engine : String → FillResult)
    (po : Nat → Option PyExc) (fs : List String) (rows : List (List CellValue)) :
    (runRows cfg engine po fs rows).1.successCount +
        (runRows cfg engine po fs rows).1.failedRows.length =
      (runRows cfg engine po fs rows).1.rowCount ∧
    (runRows cfg engine po fs rows).1.rowCount =
      (rows.filter (fun r => !(rowIsBlank r))).length := by
  unfold runRows
  rcases h : runRowsTrace cfg engine po fs 2 rows with ⟨tr, fsEnd⟩
  constructor
  · simpa [tallyOf] using tally_foldl_invariant tr _ (by simp)
  · have hc := runRowsTrace_outcome_count cfg engine po rows fs 2
    rw [h] at hc
    simpa [tallyOf, tally_foldl_rowCount] using hc

/-- C2: every exception arising in the value-coercion/artifact-generation
steps is converted by the handler into a failed outcome (never a
success, never a propagating exception); a non-blank row therefore
always yields an outcome, and the loop counts every non-blank row no
matter how many rows fail. -/
theorem row_exceptions_contained :
    (∀ e : PyExc, (rowExcHandler e).1 = false) ∧
    (∀ (cfg : RowConfig) (engine : String → FillResult) (pe : Option PyExc)
        (fs : List String) (row : List CellValue), rowIsBlank row = false →
      ∃ r, (processSingleRow cfg engine pe fs row).1 = some r) ∧
    (∀ (cfg : RowConfig) (engine : String → FillResult) (e : PyExc)
        (fs : List String) (row : List CellValue),
      rowIsBlank row = false →
      designatorOf cfg.headers row ≠ "" →
      ¬ (cfg.overwrite = false ∧
          joinPath cfg.outputDir (normalizeFilename (designatorOf cfg.headers row)) ∈ fs) →
      (processSingleRow cfg engine (some e) fs row).1 = some (rowExcHandler e)) ∧
    (∀ (cfg : RowConfig) (engine : String → FillResult) (po : Nat → Option PyExc)
        (fs : List String) (rows : List (List CellValue)),
      (runRows cfg engine po fs rows).1.rowCount =
        (rows.filter (fun r => !(rowIsBlank r))).length) := by
  refine ⟨?_, ?_, ?_, ?_⟩
  · intro e; cases e <;> rfl
  · exact fun cfg engine pe fs row hb =>
      processSingleRow_nonblank_some cfg engine pe fs row hb
  · intro cfg engine e fs row hb hd hnc
    rw [processSingleRow_fill cfg engine (some e) fs row hb hd hnc]
    rfl

  · intro cfg engine po fs rows
    unfold runRows
    rcases h : runRowsTrace cfg engine po fs 2 rows with ⟨tr, fsEnd⟩
    have hc := runRowsTrace_outcome_count cfg engine po rows fs 2
    rw [h] at hc
    simpa [tallyOf, tally_foldl_rowCount] using hc

/-- Witness for `row_exceptions_contained`: an arbitrary exception during
preparation becomes a failed outcome with the generic reason. -/
theorem row_exceptions_contained_witness :
    (processSingleRow ⟨["_output_filename"], [], "out", false⟩
      (fun _ => FillResult.ok) (some (PyExc.otherError "boom")) []
      [CellValue.str "a"]).1 = some (false, "Unexpected error: boom") := by
  have h := row_exceptions_contained.2.2.1 ⟨["_output_filename"], [], "out", false⟩
    (fun _ => FillResult.ok) (PyExc.otherError "boom") [] [CellValue.str "a"]
    (by decide) (by decide) (by decide)
  exact h.trans (by decide)

/-- C5: a row whose cells are all absent produces no outcome at all: the
per-row call returns no result, the loop records nothing that the tally
reacts to, and the counters are unchanged. -/
theorem blank_row_is_non_row (cfg : RowConfig) (engine : String → FillResult)
    (pe : Option PyExc) (po : Nat → Option PyExc) (fs : List String)
    (row : List CellValue) (n : Nat) (rest : List (List CellValue))
    (tr : List (Nat × Option (Bool × String)))
    (hblank : ∀ v ∈ row, v = CellValue.none) :
    processSingleRow cfg engine pe fs row = (Option.none, fs) ∧
    runRowsTrace cfg engine po fs n (row :: rest) =
      ((n, Option.none) :: (runRowsTrace cfg engine po fs (n + 1) rest).1,
        (runRowsTrace cfg engine po fs (n + 1) rest).2) ∧
    tallyOf ((n, Option.none) :: tr) = tallyOf tr := by
  have hb : rowIsBlank row = true := by
    simp only [rowIsBlank, List.all_eq_true]
    intro v hv
    simpa using hblank v hv
  refine ⟨processSingleRow_blank cfg engine pe fs row hb, ?_, ?_⟩
  · rw [runRowsTrace_cons]
    simp [processSingleRow_blank cfg engine (po n) fs row hb]
  · simp [tallyOf, tallyStep]

/-- Witness for `blank_row_is_non_row` on a concrete all-absent row. -/
theorem blank_row_is_non_row_witness :
    processSingleRow ⟨["_output_filename", "Name"], ["Name"], "out", false⟩
      (fun _ => FillResult.ok) Option.none [] [CellValue.none, CellValue.none] =
      (Option.none, []) :=
  (blank_row_is_non_row ⟨["_output_filename", "Name"], ["Name"], "out", false⟩
    (fun _ => FillResult.ok) Option.none (fun _ => Option.none) []
    [CellValue.none, CellValue.none] 2 [] [] (by decide)).1

/-- C6: the designator cell is stripped of surrounding whitespace; empty
after stripping terminates the row as a skip with the empty-designator
reason; otherwise the canonical extension is appended unless already
present case-insensitively, with no double suffix. -/
theorem filename_normalization_rules :
    (∀ s : String, designatorOf [OUTPUT_FILENAME_COL] [CellValue.str s] = pyStrip s) ∧
    designatorOf [OUTPUT_FILENAME_COL] [CellValue.str "  report  "] = "report" ∧
    normalizeFilename "report" = "report.pdf" ∧
    normalizeFilename "report.PDF" = "report.PDF" ∧
    (∀ d : String, pyEndsWith (pyLower d) ".pdf" = true → normalizeFilename d = d) ∧
    (∀ d : String, pyEndsWith (pyLower d) ".pdf" = false →
      normalizeFilename d = d ++ ".pdf") ∧
    (∀ (cfg : RowConfig) (engine : String → FillResult) (pe : Option PyExc)
        (fs : List String) (row : List CellValue),
      rowIsBlank row = false → designatorOf cfg.headers row = "" →
      (processSingleRow cfg engine pe fs row).1 =
        some (false, "\x27" ++ OUTPUT_FILENAME_COL ++ "\x27 is empty")) := by
  refine ⟨fun s => rfl, by decide, by decide, by decide, ?_, ?_, ?_⟩
  · intro d h; simp [normalizeFilename, h]
  · intro d h; simp [normalizeFilename, h]
  · intro cfg engine pe fs row hb hd
    rw [processSingleRow_emptyName cfg engine pe fs row hb hd]

/-- Witness for `filename_normalization_rules` at concrete designators. -/
theorem filename_normalization_rules_witness :
    normalizeFilename "Report.pDf" = "Report.pDf" ∧
    normalizeFilename "summary" = "summary.pdf" ∧
    (processSingleRow ⟨["_output_filename"], [], "out", false⟩
      (fun _ => FillResult.ok) Option.none [] [CellValue.str "   "]).1 =
      some (false, "\x27_output_filename\x27 is empty") := by
  refine ⟨filename_normalization_rules.2.2.2.2.1 "Report.pDf" (by decide),
    filename_normalization_rules.2.2.2.2.2.1 "summary" (by decide), ?_⟩
  have h := filename_normalization_rules.2.2.2.2.2.2
    ⟨["_output_filename"], [], "out", false⟩ (fun _ => FillResult.ok)
    Option.none [] [CellValue.str "   "] (by decide) (by decide)
  exact h.trans (by decide)

/-- A raised preparation exception aborts the attempt untouched. -/
theorem rowFillAttempt_prep (engine : String → FillResult) (p f : String)
    (fs : List String) (e : PyExc) :
    rowFillAttempt engine (some e) p f fs = (Except.error e, fs) := rfl

/-- A successful clone and write returns the success message and creates
the file. -/
theorem rowFillAttempt_ok (engine : String → FillResult) (p f : String)
    (fs : List String) (h : engine p = FillResult.ok) :
    rowFillAttempt engine Option.none p f fs =
      (Except.ok (true, "Successfully generated " ++ f), p :: fs) := by
  simp [rowFillAttempt, h]

/-- A clone failure raises a read error and creates no file. -/
theorem rowFillAttempt_cloneErr (engine : String → FillResult) (p f : String)
    (fs : List String) (msg : String) (h : engine p = FillResult.cloneErr msg) :
    rowFillAttempt engine Option.none p f fs =
      (Except.error (PyExc.pdfReadError ("Template read error during cloning for " ++
        f ++ " (Original error: " ++ msg ++ ")")), fs) := by
  simp [rowFillAttempt, h]

/-- A failure to open the output stream raises a write error and creates
no file. -/
theorem rowFillAttempt_openErr (engine : String → FillResult) (p f : String)
    (fs : List String) (msg : String) (h : engine p = FillResult.openErr msg) :
    rowFillAttempt engine Option.none p f fs =
      (Except.error (PyExc.pdfWriteError ("PDF write error for " ++
        f ++ " (Original error: " ++ msg ++ ")")), fs) := by
  simp [rowFillAttempt, h]

/-- A failure during `writer.write` raises a write error but leaves the
file created by `open`. -/
theorem rowFillAttempt_writeErr (engine : String → FillResult) (p f : String)
    (fs : List String) (msg : String) (h : engine p = FillResult.writeErr msg) :
    rowFillAttempt engine Option.none p f fs =
      (Except.error (PyExc.pdfWriteError ("PDF write error for " ++
        f ++ " (Original error: " ++ msg ++ ")")), p :: fs) := by
  simp [rowFillAttempt, h]

/-- Processing one row only ever extends the file set. -/
theorem processSingleRow_fs_suffix (cfg : RowConfig) (engine : String → FillResult)
    (pe : Option PyExc) (fs : List String) (row : List CellValue) :
    fs <:+ (processSingleRow cfg engine pe fs row).2 := by
  by_cases hb : rowIsBlank row = true
  · rw [processSingleRow_blank cfg engine pe fs row hb]
  · have hb' : rowIsBlank row = false := by simpa using hb
    by_cases hd : designatorOf cfg.headers row = ""
    · rw [processSingleRow_emptyName cfg engine pe fs row hb' hd]
    · by_cases hnc : cfg.overwrite = false ∧
        joinPath cfg.outputDir (normalizeFilename (designatorOf cfg.headers row)) ∈ fs
      · rw [processSingleRow_exists cfg engine pe fs row hb' hd hnc.1 hnc.2]
      · rw [processSingleRow_fill cfg engine pe fs row hb' hd hnc]
        rcases pe with _ | e
        · cases hE : engine (joinPath cfg.outputDir
            (normalizeFilename (designatorOf cfg.headers row)))
          · rw [rowFillAttempt_ok _ _ _ _ hE]; exact List.suffix_cons _ _
          · rw [rowFillAttempt_cloneErr _ _ _ _ _ hE]
          · rw [rowFillAttempt_openErr _ _ _ _ _ hE]
          · rw [rowFillAttempt_writeErr _ _ _ _ _ hE]; exact List.suffix_cons _ _
        · rw [rowFillAttempt_prep]

/-- The whole loop only ever extends the file set. -/
theorem runRowsTrace_fs_suffix (cfg : RowConfig) (engine : String → FillResult)
    (po : Nat → Option PyExc) :
    ∀ (rows : List (List CellValue)) (fs : List String) (n : Nat),
      fs <:+ (runRowsTrace cfg engine po fs n rows).2 := by
  intro rows
  induction rows with
  | nil => intro fs n; exact List.suffix_refl fs
  | cons row rest ih =>
    intro fs n
    rw [runRowsTrace_cons]
    exact (processSingleRow_fs_suffix cfg engine (po n) fs row).trans (ih _ _)

/-- A successful row outcome pins down the message and the created
file: the message names the normalized filename and the file set gains
exactly the destination path. -/
theorem processSingleRow_success_shape (cfg : RowConfig) (engine : String → FillResult)
    (pe : Option PyExc) (fs : List String) (row : List CellValue) (m : String)
    (h : (processSingleRow cfg engine pe fs row).1 = some (true, m)) :
    m = "Successfully generated " ++ normalizeFilename (designatorOf cfg.headers row) ∧
    (processSingleRow cfg engine pe fs row).2 =
      joinPath cfg.outputDir (normalizeFilename (designatorOf cfg.headers row)) :: fs := by
  by_cases hb : rowIsBlank row = true
  · rw [processSingleRow_blank cfg engine pe fs row hb] at h; simp at h
  · have hb' : rowIsBlank row = false := by simpa using hb
    by_cases hd : designatorOf cfg.headers row = ""
    · rw [processSingleRow_emptyName cfg engine pe fs row hb' hd] at h; simp at h
    · by_cases hnc : cfg.overwrite = false ∧
        joinPath cfg.outputDir (normalizeFilename (designatorOf cfg.headers row)) ∈ fs
      · rw [processSingleRow_exists cfg engine pe fs row hb' hd hnc.1 hnc.2] at h
        simp at h
      · rw [processSingleRow_fill cfg engine pe fs row hb' hd hnc] at h ⊢
        rcases pe with _ | e
        · cases hE : engine (joinPath cfg.outputDir
            (normalizeFilename (designatorOf cfg.headers row)))
          · rw [rowFillAttempt_ok _ _ _ _ hE] at h ⊢
            simp [handleAttempt] at h
            exact ⟨h.symm, rfl⟩
          · rw [rowFillAttempt_cloneErr _ _ _ _ _ hE] at h
            simp [handleAttempt, rowExcHandler] at h
          · rw [rowFillAttempt_openErr _ _ _ _ _ hE] at h
            simp [handleAttempt, rowExcHandler] at h
          · rw [rowFillAttempt_writeErr _ _ _ _ _ hE] at h
            simp [handleAttempt, rowExcHandler] at h
        · rw [rowFillAttempt_prep] at h
          cases e <;> simp [handleAttempt, rowExcHandler, pyExcMsg] at h

/-- Re-processing one row against any final file set that extends
everything the first pass left behind: the file set does not change, and
a first-pass success turns into an output-exists skip. -/
theorem processSingleRow_second_state (cfg : RowConfig) (engine : String → FillResult)
    (pe : Option PyExc) (s fs1 : List String) (row : List CellValue)
    (hov : cfg.overwrite = false)
    (hs1 : s <:+ fs1)
    (hsp1 : (processSingleRow cfg engine pe s row).2 <:+ fs1) :
    ∃ res2, processSingleRow cfg engine pe fs1 row = (res2, fs1) ∧
      ∀ m, (processSingleRow cfg engine pe s row).1 = some (true, m) →
        ∃ f, m = "Successfully generated " ++ f ∧
          res2 = some (false, "Output file exists: " ++ f ++ " (use --overwrite)") := by
  by_cases hb : rowIsBlank row = true
  · refine ⟨Option.none, processSingleRow_blank cfg engine pe fs1 row hb, ?_⟩
    intro m hm
    rw [processSingleRow_blank cfg engine pe s row hb] at hm
    simp at hm
  · have hb' : rowIsBlank row = false := by simpa using hb
    by_cases hd : designatorOf cfg.headers row = ""
    · refine ⟨_, processSingleRow_emptyName cfg engine pe fs1 row hb' hd, ?_⟩
      intro m hm
      rw [processSingleRow_emptyName cfg engine pe s row hb' hd] at hm
      simp at hm
    · by_cases hP1 : joinPath cfg.outputDir
        (normalizeFilename (designatorOf cfg.headers row)) ∈ fs1
      · refine ⟨_, processSingleRow_exists cfg engine pe fs1 row hb' hd hov hP1, ?_⟩
        intro m hm
        obtain ⟨hm1, _⟩ := processSingleRow_success_shape cfg engine pe s row m hm
        exact ⟨normalizeFilename (designatorOf cfg.headers row), hm1, rfl⟩
      · have hPs : joinPath cfg.outputDir
            (normalizeFilename (designatorOf cfg.headers row)) ∉ s :=
          fun hin => hP1 (hs1.subset hin)
        have hnc1 : ¬ (cfg.overwrite = false ∧ joinPath cfg.outputDir
            (normalizeFilename (designatorOf cfg.headers row)) ∈ s) :=
          fun hc => hPs hc.2
        have hnc2 : ¬ (cfg.overwrite = false ∧ joinPath cfg.outputDir
            (normalizeFilename (designatorOf cfg.headers row)) ∈ fs1) :=
          fun hc => hP1 hc.2
        have h1 := processSingleRow_fill cfg engine pe s row hb' hd hnc1
        have h2 := processSingleRow_fill cfg engine pe fs1 row hb' hd hnc2
        rcases pe with _ | e
        · cases hE : engine (joinPath cfg.outputDir
            (normalizeFilename (designatorOf cfg.headers row)))
          · exfalso
            rw [h1, rowFillAttempt_ok _ _ _ _ hE] at hsp1
            exact hP1 (hsp1.subset (List.mem_cons_self _ _))
          · rename_i msg
            refine ⟨_, by rw [h2, rowFillAttempt_cloneErr _ _ _ _ _ hE], ?_⟩
            intro m hm
            rw [h1, rowFillAttempt_cloneErr _ _ _ _ _ hE] at hm
            simp [handleAttempt, rowExcHandler] at hm
          · rename_i msg
            refine ⟨_, by rw [h2, rowFillAttempt_openErr _ _ _ _ _ hE], ?_⟩
            intro m hm
            rw [h1, rowFillAttempt_openErr _ _ _ _ _ hE] at hm
            simp [handleAttempt, rowExcHandler] at hm
          · rename_i msg
            exfalso
            rw [h1, rowFillAttempt_writeErr _ _ _ _ _ hE] at hsp1
            exact hP1 (hsp1.subset (List.mem_cons_self _ _))
        · refine ⟨_, by rw [h2, rowFillAttempt_prep], ?_⟩
          intro m hm
          rw [h1, rowFillAttempt_prep] at hm
          cases e <;> simp [handleAttempt, rowExcHandler, pyExcMsg] at hm

/-- Re-running the loop over the same rows, starting from any file set
that extends the final state of the first run, leaves the file set unchanged
and turns every first-run success into an output-exists skip at the
same row number. -/
theorem second_run_aux (cfg : RowConfig) (engine : String → FillResult)
    (po : Nat → Option PyExc) (hov : cfg.overwrite = false) :
    ∀ (rows : List (List CellValue)) (n : Nat) (s fs1 : List String),
      (runRowsTrace cfg engine po s n rows).2 <:+ fs1 →
      (runRowsTrace cfg engine po fs1 n rows).2 = fs1 ∧
      (∀ k m, (k, some (true, m)) ∈ (runRowsTrace cfg engine po s n rows).1 →
        ∃ f, m = "Successfully generated " ++ f ∧
          (k, some (false, "Output file exists: " ++ f ++ " (use --overwrite)"))
            ∈ (runRowsTrace cfg engine po fs1 n rows).1) := by
  intro rows
  induction rows with
  | nil =>
    intro n s fs1 hsub
    refine ⟨rfl, ?_⟩
    intro k m hk
    simp [runRowsTrace] at hk
  | cons row rest ih =>
    intro n s fs1 hsub
    rw [runRowsTrace_cons] at hsub
    have hs1 : s <:+ fs1 :=
      ((processSingleRow_fs_suffix cfg engine (po n) s row).trans
        (runRowsTrace_fs_suffix cfg engine po rest _ (n + 1))).trans hsub
    have hsp1 : (processSingleRow cfg engine (po n) s row).2 <:+ fs1 :=
      (runRowsTrace_fs_suffix cfg engine po rest _ (n + 1)).trans hsub
    obtain ⟨res2, hstep2, hmap⟩ :=
      processSingleRow_second_state cfg engine (po n) s fs1 row hov hs1 hsp1
    obtain ⟨hfs2, hmap2⟩ := ih (n + 1) (processSingleRow cfg engine (po n) s row).2 fs1 hsub
    rw [runRowsTrace_cons, hstep2]
    constructor
    · simpa using hfs2
    · intro k m hk
      rw [runRowsTrace_cons] at hk
      rcases List.mem_cons.mp hk with hhead | htail
      · have hk' : k = n ∧ (processSingleRow cfg engine (po n) s row).1 =
            some (true, m) := by
          have h1 := congrArg Prod.fst hhead
          have h2 := congrArg Prod.snd hhead
          exact ⟨h1, h2.symm⟩
        obtain ⟨f, hf, hres2⟩ := hmap m hk'.2
        refine ⟨f, hf, ?_⟩
        rw [hk'.1, hres2]
        exact List.mem_cons_self _ _
      · obtain ⟨f, hf, hmem⟩ := hmap2 k m htail
        exact ⟨f, hf, List.mem_cons_of_mem _ hmem⟩

/-- C8 amended: with overwrite disabled and a deterministic document
engine, a second run over the same rows against the output directory left by
the first run creates zero new artifacts, and every row that succeeded in
the first run is marked Skipped with the output-exists reason in the
second run.  (The claim cannot say "every row": a row with an empty
output designator is skipped with the empty-designator reason on both
runs, as the counterexample shows.) -/
theorem second_run_no_overwrite_skips_successes (cfg : RowConfig)
    (engine : String → FillResult) (po : Nat → Option PyExc)
    (fs0 : List String) (rows : List (List CellValue))
    (hov : cfg.overwrite = false) :
    (runRowsTrace cfg engine po (runRowsTrace cfg engine po fs0 2 rows).2 2 rows).2 =
      (runRowsTrace cfg engine po fs0 2 rows).2 ∧
    (∀ k m, (k, some (true, m)) ∈ (runRowsTrace cfg engine po fs0 2 rows).1 →
      ∃ f, m = "Successfully generated " ++ f ∧
        (k, some (false, "Output file exists: " ++ f ++ " (use --overwrite)"))
          ∈ (runRowsTrace cfg engine po
              (runRowsTrace cfg engine po fs0 2 rows).2 2 rows).1) :=
  second_run_aux cfg engine po hov rows 2 fs0
    (runRowsTrace cfg engine po fs0 2 rows).2 (List.suffix_refl _)

/-- Witness for `second_run_no_overwrite_skips_successes` on a concrete
one-row data source whose first run succeeds. -/
theorem second_run_no_overwrite_witness :
    (runRowsTrace ⟨["_output_filename", "Name"], ["Name"], "out", false⟩
        (fun _ => FillResult.ok) (fun _ => Option.none)
        (runRowsTrace ⟨["_output_filename", "Name"], ["Name"], "out", false⟩
          (fun _ => FillResult.ok) (fun _ => Option.none) [] 2
          [[CellValue.str "alice", CellValue.str "Bob"]]).2 2
        [[CellValue.str "alice", CellValue.str "Bob"]]).2 =
      (runRowsTrace ⟨["_output_filename", "Name"], ["Name"], "out", false⟩
        (fun _ => FillResult.ok) (fun _ => Option.none) [] 2
        [[CellValue.str "alice", CellValue.str "Bob"]]).2 ∧
    ∃ f, ("Successfully generated alice.pdf" : String) =
        "Successfully generated " ++ f ∧
      (2, some (false, "Output file exists: " ++ f ++ " (use --overwrite)")) ∈
        (runRowsTrace ⟨["_output_filename", "Name"], ["Name"], "out", false⟩
          (fun _ => FillResult.ok) (fun _ => Option.none)
          (runRowsTrace ⟨["_output_filename", "Name"], ["Name"], "out", false⟩
            (fun _ => FillResult.ok) (fun _ => Option.none) [] 2
            [[CellValue.str "alice", CellValue.str "Bob"]]).2 2
          [[CellValue.str "alice", CellValue.str "Bob"]]).1 := by
  have h := second_run_no_overwrite_skips_successes
    ⟨["_output_filename", "Name"], ["Name"], "out", false⟩
    (fun _ => FillResult.ok) (fun _ => Option.none) []
    [[CellValue.str "alice", CellValue.str "Bob"]] rfl
  exact ⟨h.1, h.2 2 "Successfully generated alice.pdf" (by decide)⟩

/-- C8 counterexample: a data source whose single row has an empty
output designator is, on the second run, skipped with the
empty-designator reason — not with the output-exists reason the claim
requires of every row — so the claim fails as universally stated. -/
theorem second_run_reason_not_output_exists :
    (runRowsTrace ⟨["_output_filename", "Name"], ["Name"], "out", false⟩
        (fun _ => FillResult.ok) (fun _ => Option.none)
        (runRowsTrace ⟨["_output_filename", "Name"], ["Name"], "out", false⟩
          (fun _ => FillResult.ok) (fun _ => Option.none) [] 2
          [[CellValue.str "", CellValue.str "x"]]).2 2
        [[CellValue.str "", CellValue.str "x"]]).1 =
      [(2, some (false, "\x27_output_filename\x27 is empty"))] ∧
    ¬ ∃ f : String, ("\x27_output_filename\x27 is empty" : String) =
      "Output file exists: " ++ f ++ " (use --overwrite)" := by
  constructor
  · rfl
  · rintro ⟨f, hf⟩
    have h2 := congrArg String.length hf
    rw [String.length_append, String.length_append] at h2
    have e1 : ("\x27_output_filename\x27 is empty" : String).length = 27 := rfl
    have e2 : ("Output file exists: " : String).length = 20 := rfl
    have e3 : (" (use --overwrite)" : String).length = 18 := rfl
    rw [e1, e2, e3] at h2
    omega

end PyBulkPDF
